import Mathlib

/-!
# Trap listener of gosnmp (trap.go)

A shallow embedding of `TrapListener.Listen`, `debugTrapHandler` and
`GoSNMP.unmarshalTrap`, together with the properties of the receive loop.

Conventions of the embedding.

* A Go pointer or func value that the source compares with nil is an `Option`.
* A Go `error` is `Option Err`; `none` is the nil error.
* Side effects are recorded in an explicit `World`: the lines handed to
  `Params.Logger.Printf`, the byte slices handed to `x.unmarshal`, the argument
  pairs of every `t.OnNewTrap` call, the number of `ReadFromUDP` and `ListenUDP`
  calls, and the state the handlers act on.
* `Listen` never returns once it is in its loop, so it is run against a finite
  list of outcomes of `conn.ReadFromUDP`; the result is the state reached after
  the loop has consumed exactly those outcomes.
-/

namespace gosnmp

/-- One octet. -/
abbrev Byte := Fin 256

/-- A non-nil Go error, identified with the text `%s` prints for it. -/
abbrev Err := String

/-- The value behind a `*net.UDPAddr`. -/
structure UDPAddr where
  IP : List Byte
  Port : Nat
  Zone : String
deriving DecidableEq, Repr

/-- The value behind a `*net.UDPConn`, named by its descriptor. -/
abbrev UDPConn := Nat

/-- The fields of `GoSNMP` that trap.go reads. The struct is declared outside
trap.go; every other field is kept in `other`. The `Logger` field is represented
by the `logger` trace of the `World`: each `x.Logger.Printf` appends the printed
line there. -/
structure GoSNMP (Cfg : Type) where
  loggingEnabled : Bool
  other : Cfg

/-- A func value of type `func(s *SnmpPacket, u *net.UDPAddr)`: what a call does
to the state `α` that handlers act on. -/
abbrev TrapHandler (Packet α : Type) := Option Packet → Option UDPAddr → α → α

/-- The struct `TrapListener` (trap.go 64-67); `none` is nil. -/
structure TrapListener (Packet Cfg α : Type) where
  OnNewTrap : Option (TrapHandler Packet α)
  Params : Option (GoSNMP Cfg)

/-- What trap.go uses and does not define: the decoder `x.unmarshal`, the zero
value `new(SnmpPacket)` points to, the two `net` calls of the setup, the standard
logger behind `log.Printf`, and the `%+v` renderings. -/
structure Ext (Packet Cfg α : Type) where
  newPacket : Packet
  unmarshal : GoSNMP Cfg → List Byte → Packet → Packet × Option Err
  ResolveUDPAddr : String → Option UDPAddr × Option Err
  ListenUDP : Option UDPAddr → Option UDPConn × Option Err
  logPrintf : String → α → α
  showAddr : Option UDPAddr → String
  showPacket : Option Packet → String

/-- Everything the listener does that can be observed. -/
structure World (Packet α : Type) where
  logger : List String
  decoded : List (List Byte)
  calls : List (Option Packet × Option UDPAddr)
  reads : Nat
  binds : Nat
  app : α

/-- What one `conn.ReadFromUDP` call meets: a datagram from a sender, or a
failure of the read. -/
inductive ReadOutcome where
  | datagram (payload : List Byte) (src : UDPAddr)
  | failure (err : Err)
deriving DecidableEq, Repr

/-- The socket of one `Listen` call. -/
inductive Sock where
  | unopened
  | opened
  | closed
deriving DecidableEq, Repr

/-- Where a `Listen` call stands: inside its loop, returned with a value, or
stopped by a run-time panic. -/
inductive Status where
  | running
  | returned (err : Option Err)
  | panicked
deriving DecidableEq, Repr

/-- The state of one `Listen` call. -/
structure Run (Packet Cfg α : Type) where
  t : TrapListener Packet Cfg α
  status : Status
  sock : Sock
  w : World Packet α

/-- The length of the receive buffer `var buf [4096]byte`. -/
def bufSize : Nat := 4096

/-- The declaration `var buf [4096]byte`: a zeroed array. -/
def newBuf : List Byte := List.replicate bufSize 0

/-- The call `conn.ReadFromUDP(buf[:])` of the `net` package: a datagram is copied
into the front of the buffer, as far as it fits, and its sender is reported; a
failed read leaves the buffer alone and reports `0, nil, err`. The result is the
buffer afterwards, `rlen`, `remote` and `err`. -/
def ReadFromUDP (buf : List Byte) :
    ReadOutcome → List Byte × Nat × Option UDPAddr × Option Err
  | .datagram payload src =>
      let n := min payload.length buf.length
      (payload.take n ++ buf.drop n, n, some src, none)
  | .failure err => (buf, 0, none, some err)

variable {Packet Cfg α : Type}

/-- The function `debugTrapHandler` (trap.go 107-109). -/
def debugTrapHandler (E : Ext Packet Cfg α) : TrapHandler Packet α :=
  fun s u a =>
    E.logPrintf ("got trapdata from " ++ E.showAddr u ++ ": " ++ E.showPacket s ++ "\n") a

/-- The method `GoSNMP.unmarshalTrap` (trap.go 112-122). The result is the
returned pointer and the world after the call. -/
def unmarshalTrap (E : Ext Packet Cfg α) (x : GoSNMP Cfg) (trap : List Byte)
    (w : World Packet α) : Option Packet × World Packet α :=
  let result := E.newPacket
  let (result, err) := E.unmarshal x trap result
  let w := { w with decoded := w.decoded ++ [trap] }
  let w :=
    match err with
    | some e =>
        if x.loggingEnabled then
          { w with logger := w.logger ++ ["unmarshalTrap: " ++ e ++ "\n"] }
        else w
    | none => w
  (some result, w)

/-- Lines 72-78 of `Listen`: nil fields are replaced by the defaults. `Default`
is the package variable of that name, a `*GoSNMP` declared outside trap.go. -/
def applyDefaults (E : Ext Packet Cfg α) (Default : Option (GoSNMP Cfg))
    (t : TrapListener Packet Cfg α) : TrapListener Packet Cfg α :=
  let t :=
    match t.Params with
    | none => { t with Params := Default }
    | some _ => t
  let t :=
    match t.OnNewTrap with
    | none => { t with OnNewTrap := some (debugTrapHandler E) }
    | some _ => t
  t

/-- Lines 92-101 of the loop body, for a non-nil `t.Params`: the read, the
diagnostic of a failed read, the slice `buf[:rlen]` and the call of
`unmarshalTrap`. The result is `traps`, `remote` and the world afterwards. -/
def receive (E : Ext Packet Cfg α) (x : GoSNMP Cfg) (o : ReadOutcome)
    (w : World Packet α) : Option Packet × Option UDPAddr × World Packet α :=
  let buf := newBuf
  let (buf, rlen, remote, err) := ReadFromUDP buf o
  let w := { w with reads := w.reads + 1 }
  let w :=
    match err with
    | some e =>
        if x.loggingEnabled then
          { w with logger := w.logger ++ ["TrapListener: error in read " ++ e ++ "\n"] }
        else w
    | none => w
  let msg := buf.take rlen
  let (traps, w) := unmarshalTrap E x msg w
  (traps, remote, w)

/-- One iteration of the loop of `Listen` (trap.go 91-103). A nil `t.Params` is
dereferenced in the iteration and a nil `t.OnNewTrap` cannot be called: both
panic, which runs the deferred `conn.Close()`. A state that is not running does
not move. -/
def step (E : Ext Packet Cfg α) (r : Run Packet Cfg α) (o : ReadOutcome) :
    Run Packet Cfg α :=
  match r.status with
  | .running =>
      match r.t.Params with
      | none =>
          { r with status := .panicked, sock := .closed,
                   w := { r.w with reads := r.w.reads + 1 } }
      | some x =>
          let (traps, remote, w) := receive E x o r.w
          match r.t.OnNewTrap with
          | none => { r with status := .panicked, sock := .closed, w := w }
          | some h =>
              { r with w := { w with calls := w.calls ++ [(traps, remote)],
                                     app := h traps remote w.app } }
  | _ => r

/-- The loop of `Listen` run over the given read outcomes. -/
def loop (E : Ext Packet Cfg α) (r : Run Packet Cfg α) (outs : List ReadOutcome) :
    Run Packet Cfg α :=
  outs.foldl (step E) r

/-- The method `TrapListener.Listen` (trap.go 71-104), run until it returns or
until its loop has consumed the read outcomes `outs`. -/
def Listen (E : Ext Packet Cfg α) (Default : Option (GoSNMP Cfg))
    (t : TrapListener Packet Cfg α) (addr : String) (w : World Packet α)
    (outs : List ReadOutcome) : Run Packet Cfg α :=
  let t := applyDefaults E Default t
  let (udpAddr, err) := E.ResolveUDPAddr addr
  match err with
  | some e => { t := t, status := .returned (some e), sock := .unopened, w := w }
  | none =>
      let w := { w with binds := w.binds + 1 }
      let (_conn, err) := E.ListenUDP udpAddr
      match err with
      | some e => { t := t, status := .returned (some e), sock := .unopened, w := w }
      | none => loop E { t := t, status := .running, sock := .opened, w := w } outs

/-- A world in which nothing has happened yet. -/
def World.init (a : α) : World Packet α :=
  { logger := [], decoded := [], calls := [], reads := 0, binds := 0, app := a }

/-- The slice `buf[:rlen]` of an iteration whose read meets `o`
(trap.go 92-93 and 100). -/
def msgOf (o : ReadOutcome) : List Byte :=
  (ReadFromUDP newBuf o).1.take (ReadFromUDP newBuf o).2.1

/-- The value `remote` of an iteration whose read meets `o` (trap.go 93). -/
def remoteOf (o : ReadOutcome) : Option UDPAddr :=
  (ReadFromUDP newBuf o).2.2.1

/-- The value `err` of an iteration whose read meets `o` (trap.go 93). -/
def readErrOf (o : ReadOutcome) : Option Err :=
  (ReadFromUDP newBuf o).2.2.2

/-- The lines the read part of an iteration prints to the Logger (trap.go 94-98). -/
def readLines (x : GoSNMP Cfg) (o : ReadOutcome) : List String :=
  match readErrOf o with
  | some e => if x.loggingEnabled then ["TrapListener: error in read " ++ e ++ "\n"] else []
  | none => []

/-- The lines `unmarshalTrap` prints to the Logger for `trap` (trap.go 115-119). -/
def decodeLines (E : Ext Packet Cfg α) (x : GoSNMP Cfg) (trap : List Byte) : List String :=
  match (E.unmarshal x trap E.newPacket).2 with
  | some e => if x.loggingEnabled then ["unmarshalTrap: " ++ e ++ "\n"] else []
  | none => []

/-- The arguments of the handler call of an iteration whose read meets `o`
(trap.go 100-102). -/
def argsOf (E : Ext Packet Cfg α) (x : GoSNMP Cfg) (o : ReadOutcome) :
    Option Packet × Option UDPAddr :=
  (some (E.unmarshal x (msgOf o) E.newPacket).1, remoteOf o)

/-- The world after one complete iteration with configuration `x` and handler `h`. -/
def afterIteration (E : Ext Packet Cfg α) (x : GoSNMP Cfg) (h : TrapHandler Packet α)
    (w : World Packet α) (o : ReadOutcome) : World Packet α :=
  { logger := w.logger ++ (readLines x o ++ decodeLines E x (msgOf o)),
    decoded := w.decoded ++ [msgOf o],
    calls := w.calls ++ [argsOf E x o],
    reads := w.reads + 1,
    binds := w.binds,
    app := h (argsOf E x o).1 (argsOf E x o).2 w.app }

/-- A concrete set of externals for the closed examples: a packet is the list of
octets the decoder kept, the decoder rejects an empty message, only
`0.0.0.0:port` addresses with port 162 or 1 resolve, and only port 162 binds. -/
def sampleExt : Ext (List Byte) Unit (List String) where
  newPacket := []
  unmarshal := fun _ trap result =>
    if trap.isEmpty then (result, some "empty message") else (trap, none)
  ResolveUDPAddr := fun s =>
    if s = "0.0.0.0:162" then (some ⟨[0, 0, 0, 0], 162, ""⟩, none)
    else if s = "0.0.0.0:1" then (some ⟨[0, 0, 0, 0], 1, ""⟩, none)
    else (none, some "missing port in address")
  ListenUDP := fun a =>
    match a with
    | some a => if a.Port = 162 then (some 3, none) else (none, some "bind: permission denied")
    | none => (some 3, none)
  logPrintf := fun s a => a ++ [s]
  showAddr := fun u => match u with
    | some u => toString u.Port
    | none => "<nil>"
  showPacket := fun s => match s with
    | some p => toString p.length
    | none => "<nil>"

/-- A sender. -/
def sampleSrc : UDPAddr := ⟨[10, 0, 0, 7], 50000, ""⟩

/-- A configuration with logging switched on. -/
def sampleParams : GoSNMP Unit := { loggingEnabled := true, other := () }

/-- A configuration with logging switched off. -/
def quietParams : GoSNMP Unit := { loggingEnabled := false, other := () }

/-- A handler supplied by a caller: it notes the port of each sender. -/
def sampleHandler : TrapHandler (List Byte) (List String) :=
  fun _ u a => a ++ [match u with
    | some u => toString u.Port
    | none => "nil"]

/-- A listener with both fields nil. -/
def emptyListener : TrapListener (List Byte) Unit (List String) :=
  { OnNewTrap := none, Params := none }

/-! ## Lemmas on the read and on one iteration -/

theorem newBuf_length : newBuf.length = bufSize := by
  simp [newBuf]

theorem take_min_length (p : List Byte) (n : Nat) :
    p.take (min p.length n) = p.take n := by
  rcases Nat.le_total p.length n with h | h
  · rw [Nat.min_eq_left h, List.take_of_length_le (le_refl _), List.take_of_length_le h]
  · rw [Nat.min_eq_right h]

/-- The slice `buf[:rlen]` after a datagram was read into a zeroed buffer. -/
theorem slice_datagram (p : List Byte) :
    (p.take (min p.length newBuf.length) ++ newBuf.drop (min p.length newBuf.length)).take
        (min p.length newBuf.length) = p.take bufSize := by
  rw [newBuf_length]
  have hlen : (p.take (min p.length bufSize)).length = min p.length bufSize := by
    rw [List.length_take]
    omega
  rw [List.take_append_of_le_length (by rw [hlen]), List.take_of_length_le (by rw [hlen])]
  exact take_min_length p bufSize

theorem msgOf_datagram (p : List Byte) (s : UDPAddr) :
    msgOf (.datagram p s) = p.take bufSize := by
  simp only [msgOf, ReadFromUDP]
  exact slice_datagram p

theorem msgOf_failure (e : Err) : msgOf (.failure e) = [] := by
  simp [msgOf, ReadFromUDP]

theorem unmarshalTrap_eq (E : Ext Packet Cfg α) (x : GoSNMP Cfg) (trap : List Byte)
    (w : World Packet α) :
    unmarshalTrap E x trap w =
      (some (E.unmarshal x trap E.newPacket).1,
        { w with decoded := w.decoded ++ [trap],
                 logger := w.logger ++ decodeLines E x trap }) := by
  rcases hq : E.unmarshal x trap E.newPacket with ⟨p, _ | e⟩
  · simp [unmarshalTrap, decodeLines, hq]
  · cases hl : x.loggingEnabled <;> simp [unmarshalTrap, decodeLines, hq, hl]

theorem receive_eq (E : Ext Packet Cfg α) (x : GoSNMP Cfg) (o : ReadOutcome)
    (w : World Packet α) :
    receive E x o w =
      ((argsOf E x o).1, (argsOf E x o).2,
        { w with logger := w.logger ++ (readLines x o ++ decodeLines E x (msgOf o)),
                 decoded := w.decoded ++ [msgOf o],
                 reads := w.reads + 1 }) := by
  cases o with
  | datagram p s =>
      simp [receive, unmarshalTrap_eq, argsOf, msgOf, remoteOf, readLines, readErrOf,
        ReadFromUDP]
  | failure e =>
      cases hl : x.loggingEnabled <;>
        simp [receive, unmarshalTrap_eq, argsOf, msgOf, remoteOf, readLines, readErrOf,
          ReadFromUDP, hl]

theorem step_ready (E : Ext Packet Cfg α) (r : Run Packet Cfg α) (o : ReadOutcome)
    (x : GoSNMP Cfg) (h : TrapHandler Packet α)
    (hs : r.status = .running) (hx : r.t.Params = some x) (hh : r.t.OnNewTrap = some h) :
    step E r o = { r with w := afterIteration E x h r.w o } := by
  simp [step, hs, hx, hh, receive_eq, afterIteration]

theorem loop_ready (E : Ext Packet Cfg α) (x : GoSNMP Cfg) (h : TrapHandler Packet α)
    (outs : List ReadOutcome) :
    ∀ r : Run Packet Cfg α, r.status = .running → r.t.Params = some x →
      r.t.OnNewTrap = some h →
      loop E r outs = { r with w := outs.foldl (afterIteration E x h) r.w } := by
  induction outs with
  | nil => intro r _ _ _; rfl
  | cons o outs ih =>
      intro r hs hx hh
      have h1 := step_ready E r o x h hs hx hh
      simp only [loop, List.foldl_cons] at ih ⊢
      rw [h1]
      exact ih _ hs hx hh

/-! ## Lemmas on the loop -/

theorem foldl_calls (E : Ext Packet Cfg α) (x : GoSNMP Cfg) (h : TrapHandler Packet α)
    (outs : List ReadOutcome) :
    ∀ w : World Packet α,
      (outs.foldl (afterIteration E x h) w).calls = w.calls ++ outs.map (argsOf E x) := by
  induction outs with
  | nil => intro w; simp
  | cons o outs ih => intro w; simp [ih, afterIteration]

theorem foldl_reads (E : Ext Packet Cfg α) (x : GoSNMP Cfg) (h : TrapHandler Packet α)
    (outs : List ReadOutcome) :
    ∀ w : World Packet α,
      (outs.foldl (afterIteration E x h) w).reads = w.reads + outs.length := by
  induction outs with
  | nil => intro w; simp
  | cons o outs ih => intro w; simp [ih, afterIteration]; omega

theorem quiet_lines (E : Ext Packet Cfg α) (x : GoSNMP Cfg) (o : ReadOutcome)
    (hq : x.loggingEnabled = false) :
    readLines x o ++ decodeLines E x (msgOf o) = [] := by
  have h1 : readLines x o = [] := by
    unfold readLines
    split <;> simp [hq]
  have h2 : decodeLines E x (msgOf o) = [] := by
    unfold decodeLines
    split <;> simp [hq]
  rw [h1, h2]
  rfl

theorem foldl_logger_quiet (E : Ext Packet Cfg α) (x : GoSNMP Cfg) (h : TrapHandler Packet α)
    (hq : x.loggingEnabled = false) (outs : List ReadOutcome) :
    ∀ w : World Packet α, (outs.foldl (afterIteration E x h) w).logger = w.logger := by
  induction outs with
  | nil => intro w; simp
  | cons o outs ih =>
      intro w
      simp only [List.foldl_cons, ih]
      simp [afterIteration, quiet_lines E x o hq]

theorem step_t (E : Ext Packet Cfg α) (r : Run Packet Cfg α) (o : ReadOutcome) :
    (step E r o).t = r.t := by
  unfold step
  cases r.status with
  | running =>
      cases r.t.Params with
      | none => rfl
      | some x =>
          rcases receive E x o r.w with ⟨a, b, c⟩
          cases r.t.OnNewTrap <;> rfl
  | returned v => rfl
  | panicked => rfl

theorem step_w_of_not_running (E : Ext Packet Cfg α) (r : Run Packet Cfg α)
    (o : ReadOutcome) (hs : r.status ≠ .running) : step E r o = r := by
  unfold step
  cases hr : r.status with
  | running => exact absurd hr hs
  | returned v => rfl
  | panicked => rfl

theorem step_not_returned (E : Ext Packet Cfg α) (r : Run Packet Cfg α) (o : ReadOutcome)
    (hn : ∀ v, r.status ≠ .returned v) : ∀ v, (step E r o).status ≠ .returned v := by
  intro v
  by_cases hs : r.status = .running
  · unfold step
    rw [hs]
    cases r.t.Params with
    | none => simp
    | some x =>
        rcases receive E x o r.w with ⟨a, b, c⟩
        cases r.t.OnNewTrap with
        | none => simp
        | some h => simp [hs]
  · rw [step_w_of_not_running E r o hs]
    exact hn v

theorem loop_t (E : Ext Packet Cfg α) (outs : List ReadOutcome) :
    ∀ r : Run Packet Cfg α, (loop E r outs).t = r.t := by
  induction outs with
  | nil => intro r; rfl
  | cons o outs ih =>
      intro r
      simp only [loop, List.foldl_cons] at ih ⊢
      rw [ih, step_t]

theorem loop_not_returned (E : Ext Packet Cfg α) (outs : List ReadOutcome) :
    ∀ r : Run Packet Cfg α, (∀ v, r.status ≠ .returned v) →
      ∀ v, (loop E r outs).status ≠ .returned v := by
  induction outs with
  | nil => intro r hn v; exact hn v
  | cons o outs ih =>
      intro r hn v
      simp only [loop, List.foldl_cons] at ih ⊢
      exact ih _ (step_not_returned E r o hn) v

/-! ## Lemmas on the setup -/

theorem applyDefaults_Params (E : Ext Packet Cfg α) (Default : Option (GoSNMP Cfg))
    (t : TrapListener Packet Cfg α) :
    (applyDefaults E Default t).Params =
      (match t.Params with
       | none => Default
       | some p => some p) := by
  unfold applyDefaults
  cases hp : t.Params <;> cases hh : t.OnNewTrap <;> simp [hp, hh]

theorem applyDefaults_OnNewTrap (E : Ext Packet Cfg α) (Default : Option (GoSNMP Cfg))
    (t : TrapListener Packet Cfg α) :
    (applyDefaults E Default t).OnNewTrap =
      (match t.OnNewTrap with
       | none => some (debugTrapHandler E)
       | some h => some h) := by
  unfold applyDefaults
  cases hp : t.Params <;> cases hh : t.OnNewTrap <;> simp [hp, hh]

theorem applyDefaults_handler_some (E : Ext Packet Cfg α) (Default : Option (GoSNMP Cfg))
    (t : TrapListener Packet Cfg α) :
    ∃ h, (applyDefaults E Default t).OnNewTrap = some h := by
  rw [applyDefaults_OnNewTrap]
  cases t.OnNewTrap with
  | none => exact ⟨_, rfl⟩
  | some h => exact ⟨h, rfl⟩

theorem Listen_resolve_failed (E : Ext Packet Cfg α) (Default : Option (GoSNMP Cfg))
    (t : TrapListener Packet Cfg α) (addr : String) (w : World Packet α)
    (outs : List ReadOutcome) (e : Err) (hres : (E.ResolveUDPAddr addr).2 = some e) :
    Listen E Default t addr w outs =
      { t := applyDefaults E Default t, status := .returned (some e), sock := .unopened,
        w := w } := by
  unfold Listen
  rcases hr : E.ResolveUDPAddr addr with ⟨a, err⟩
  rw [hr] at hres
  simp only at hres
  subst hres
  rfl

theorem Listen_bind_failed (E : Ext Packet Cfg α) (Default : Option (GoSNMP Cfg))
    (t : TrapListener Packet Cfg α) (addr : String) (w : World Packet α)
    (outs : List ReadOutcome) (e : Err) (hres : (E.ResolveUDPAddr addr).2 = none)
    (hbind : (E.ListenUDP (E.ResolveUDPAddr addr).1).2 = some e) :
    Listen E Default t addr w outs =
      { t := applyDefaults E Default t, status := .returned (some e), sock := .unopened,
        w := { w with binds := w.binds + 1 } } := by
  unfold Listen
  rcases hr : E.ResolveUDPAddr addr with ⟨a, err⟩
  rw [hr] at hres hbind
  simp only at hres hbind
  subst hres
  rcases hb : E.ListenUDP a with ⟨c, err2⟩
  rw [hb] at hbind
  simp only at hbind
  subst hbind
  simp [hb]

theorem Listen_enters_loop (E : Ext Packet Cfg α) (Default : Option (GoSNMP Cfg))
    (t : TrapListener Packet Cfg α) (addr : String) (w : World Packet α)
    (outs : List ReadOutcome) (hres : (E.ResolveUDPAddr addr).2 = none)
    (hbind : (E.ListenUDP (E.ResolveUDPAddr addr).1).2 = none) :
    Listen E Default t addr w outs =
      loop E { t := applyDefaults E Default t, status := .running, sock := .opened,
               w := { w with binds := w.binds + 1 } } outs := by
  unfold Listen
  rcases hr : E.ResolveUDPAddr addr with ⟨a, err⟩
  rw [hr] at hres hbind
  simp only at hres hbind
  subst hres
  rcases hb : E.ListenUDP a with ⟨c, err2⟩
  rw [hb] at hbind
  simp only at hbind
  subst hbind
  simp [hb]

theorem Listen_running (E : Ext Packet Cfg α) (Default : Option (GoSNMP Cfg))
    (t : TrapListener Packet Cfg α) (addr : String) (w : World Packet α)
    (outs : List ReadOutcome) (x : GoSNMP Cfg) (h : TrapHandler Packet α)
    (hres : (E.ResolveUDPAddr addr).2 = none)
    (hbind : (E.ListenUDP (E.ResolveUDPAddr addr).1).2 = none)
    (hx : (applyDefaults E Default t).Params = some x)
    (hh : (applyDefaults E Default t).OnNewTrap = some h) :
    Listen E Default t addr w outs =
      { t := applyDefaults E Default t, status := .running, sock := .opened,
        w := outs.foldl (afterIteration E x h) { w with binds := w.binds + 1 } } := by
  rw [Listen_enters_loop E Default t addr w outs hres hbind]
  exact loop_ready E x h outs _ rfl hx hh

/-! ## The claims -/

/-- C1: in a loop iteration of `Listen` whose read succeeds with a datagram from
`s`, the read reports no error and `s` as the sender, and `t.OnNewTrap` is called
exactly once: the trace of calls grows by the single entry made of the packet
`unmarshalTrap` returned for the slice of this datagram and of `s`, and the
handler has acted once, on those arguments. The packet is what the decoder left,
whatever error the decoder reported, and the listener stays in its loop. -/
theorem C1_handler_once_per_datagram (E : Ext Packet Cfg α) (r : Run Packet Cfg α)
    (x : GoSNMP Cfg) (h : TrapHandler Packet α) (p : List Byte) (s : UDPAddr)
    (hs : r.status = .running) (hx : r.t.Params = some x)
    (hh : r.t.OnNewTrap = some h) :
    readErrOf (.datagram p s) = none ∧
    remoteOf (.datagram p s) = some s ∧
    (step E r (.datagram p s)).w.calls =
      r.w.calls ++
        [((unmarshalTrap E x (msgOf (.datagram p s)) { r.w with reads := r.w.reads + 1 }).1,
          some s)] ∧
    (step E r (.datagram p s)).w.app =
      h (unmarshalTrap E x (msgOf (.datagram p s)) { r.w with reads := r.w.reads + 1 }).1
        (some s) r.w.app ∧
    (unmarshalTrap E x (msgOf (.datagram p s)) { r.w with reads := r.w.reads + 1 }).1 =
      some (E.unmarshal x (p.take bufSize) E.newPacket).1 ∧
    (step E r (.datagram p s)).status = .running := by
  rw [step_ready E r _ x h hs hx hh]
  simp [afterIteration, argsOf, unmarshalTrap_eq, msgOf_datagram, readErrOf, remoteOf,
    ReadFromUDP, hs]

/-- C1, at a datagram of three octets handled by a caller's handler. -/
theorem C1_handler_once_per_datagram_witness :
    (step sampleExt
        { t := { OnNewTrap := some sampleHandler, Params := some sampleParams },
          status := .running, sock := .opened, w := World.init [] }
        (.datagram [1, 2, 3] sampleSrc)).w.calls =
      [] ++
        [((unmarshalTrap sampleExt sampleParams (msgOf (.datagram [1, 2, 3] sampleSrc))
            { (World.init [] : World (List Byte) (List String)) with reads := 0 + 1 }).1,
          some sampleSrc)] :=
  (C1_handler_once_per_datagram sampleExt
    { t := { OnNewTrap := some sampleHandler, Params := some sampleParams },
      status := .running, sock := .opened, w := World.init [] }
    sampleParams sampleHandler [1, 2, 3] sampleSrc rfl rfl rfl).2.2.1

/-- C3: the defaulting step of `Listen` sets `Params` to `Default` if it was nil
and leaves it alone otherwise, and sets `OnNewTrap` to `debugTrapHandler` if it was
nil and leaves it alone otherwise; so a field supplied by the caller is never
replaced, the handler is non-nil afterwards and so is `Params` when `Default` is.
Every state `Listen` reaches carries the defaulted listener, and the loop starts
from it before any read. -/
theorem C3_defaulting (E : Ext Packet Cfg α) (Default : Option (GoSNMP Cfg))
    (t : TrapListener Packet Cfg α) :
    (applyDefaults E Default t).Params =
      (match t.Params with
       | none => Default
       | some p => some p) ∧
    (applyDefaults E Default t).OnNewTrap =
      (match t.OnNewTrap with
       | none => some (debugTrapHandler E)
       | some h => some h) ∧
    (∀ p, t.Params = some p → (applyDefaults E Default t).Params = some p) ∧
    (∀ h, t.OnNewTrap = some h → (applyDefaults E Default t).OnNewTrap = some h) ∧
    (Default ≠ none → (applyDefaults E Default t).Params ≠ none) ∧
    (applyDefaults E Default t).OnNewTrap ≠ none ∧
    (∀ addr w outs, (Listen E Default t addr w outs).t = applyDefaults E Default t) ∧
    (∀ addr w outs, (E.ResolveUDPAddr addr).2 = none →
      (E.ListenUDP (E.ResolveUDPAddr addr).1).2 = none →
      Listen E Default t addr w outs =
        loop E { t := applyDefaults E Default t, status := .running, sock := .opened,
                 w := { w with binds := w.binds + 1 } } outs) := by
  refine ⟨applyDefaults_Params E Default t, applyDefaults_OnNewTrap E Default t,
    ?_, ?_, ?_, ?_, ?_, ?_⟩
  · intro p hp
    rw [applyDefaults_Params, hp]
  · intro h hh
    rw [applyDefaults_OnNewTrap, hh]
  · intro hD
    rw [applyDefaults_Params]
    cases hp : t.Params with
    | none => exact hD
    | some p => simp
  · obtain ⟨h, hh⟩ := applyDefaults_handler_some E Default t
    rw [hh]
    simp
  · intro addr w outs
    cases hres : (E.ResolveUDPAddr addr).2 with
    | some e => rw [Listen_resolve_failed E Default t addr w outs e hres]
    | none =>
        cases hbind : (E.ListenUDP (E.ResolveUDPAddr addr).1).2 with
        | some e => rw [Listen_bind_failed E Default t addr w outs e hres hbind]
        | none => rw [Listen_enters_loop E Default t addr w outs hres hbind, loop_t]
  · intro addr w outs hres hbind
    exact Listen_enters_loop E Default t addr w outs hres hbind

/-- C3, at a listener with both fields nil and a non-nil `Default`. -/
theorem C3_defaulting_witness :
    (applyDefaults sampleExt (some quietParams) emptyListener).Params ≠ none :=
  (C3_defaulting sampleExt (some quietParams) emptyListener).2.2.2.2.1 (by simp)

/-- C4: when the resolution of the address fails with `e`, `Listen` returns
exactly `e`, which is non-nil; `ListenUDP` is not called and no socket is opened,
no read is made, the decoder is not run and the handler is not called: the world
is the one `Listen` started in. -/
theorem C4_resolution_failure (E : Ext Packet Cfg α) (Default : Option (GoSNMP Cfg))
    (t : TrapListener Packet Cfg α) (addr : String) (w : World Packet α)
    (outs : List ReadOutcome) (e : Err) (hres : (E.ResolveUDPAddr addr).2 = some e) :
    (Listen E Default t addr w outs).status = .returned (some e) ∧
    (Listen E Default t addr w outs).sock = .unopened ∧
    (Listen E Default t addr w outs).w = w ∧
    (Listen E Default t addr w outs).w.binds = w.binds ∧
    (Listen E Default t addr w outs).w.reads = w.reads ∧
    (Listen E Default t addr w outs).w.decoded = w.decoded ∧
    (Listen E Default t addr w outs).w.calls = w.calls := by
  rw [Listen_resolve_failed E Default t addr w outs e hres]
  simp

/-- C4, at an address without a port, with datagrams waiting. -/
theorem C4_resolution_failure_witness :
    (Listen sampleExt none emptyListener "localhost" (World.init [])
        [.datagram [1] sampleSrc]).status = .returned (some "missing port in address") :=
  (C4_resolution_failure sampleExt none emptyListener "localhost" (World.init [])
    [.datagram [1] sampleSrc] "missing port in address" (by decide)).1

/-- C5: when the address resolves and `ListenUDP` fails with `e`, `Listen` returns
exactly `e`, which is non-nil, after that single `ListenUDP` call; no socket is
open, no read is made, the decoder is not run and the handler is not called. -/
theorem C5_bind_failure (E : Ext Packet Cfg α) (Default : Option (GoSNMP Cfg))
    (t : TrapListener Packet Cfg α) (addr : String) (w : World Packet α)
    (outs : List ReadOutcome) (e : Err) (hres : (E.ResolveUDPAddr addr).2 = none)
    (hbind : (E.ListenUDP (E.ResolveUDPAddr addr).1).2 = some e) :
    (Listen E Default t addr w outs).status = .returned (some e) ∧
    (Listen E Default t addr w outs).sock = .unopened ∧
    (Listen E Default t addr w outs).w.binds = w.binds + 1 ∧
    (Listen E Default t addr w outs).w.reads = w.reads ∧
    (Listen E Default t addr w outs).w.decoded = w.decoded ∧
    (Listen E Default t addr w outs).w.calls = w.calls ∧
    (Listen E Default t addr w outs).w.logger = w.logger ∧
    (Listen E Default t addr w outs).w.app = w.app := by
  rw [Listen_bind_failed E Default t addr w outs e hres hbind]
  simp

/-- C5, at a port that resolves and cannot be bound, with datagrams waiting. -/
theorem C5_bind_failure_witness :
    (Listen sampleExt none emptyListener "0.0.0.0:1" (World.init [])
        [.datagram [1] sampleSrc]).status = .returned (some "bind: permission denied") :=
  (C5_bind_failure sampleExt none emptyListener "0.0.0.0:1" (World.init [])
    [.datagram [1] sampleSrc] "bind: permission denied" (by decide) (by decide)).1

/-- C6: once the address has resolved and the socket is bound, `Listen` (with a
non-nil `Params` after defaulting) is in its loop after every finite sequence of
read outcomes, whatever mix of datagrams, failed reads and decode errors: it is
running, its socket is open, it has made one read per outcome and it has not
returned. Whatever value `Listen` returns is therefore a non-nil error, the one of
the address resolution or the one of the bind; it never returns nil. -/
theorem C6_loop_never_left (E : Ext Packet Cfg α) (Default : Option (GoSNMP Cfg))
    (t : TrapListener Packet Cfg α) (addr : String) (w : World Packet α) :
    (∀ x, (E.ResolveUDPAddr addr).2 = none →
      (E.ListenUDP (E.ResolveUDPAddr addr).1).2 = none →
      (applyDefaults E Default t).Params = some x →
      ∀ outs,
        (Listen E Default t addr w outs).status = .running ∧
        (Listen E Default t addr w outs).sock = .opened ∧
        (Listen E Default t addr w outs).w.reads = w.reads + outs.length ∧
        (∀ v, (Listen E Default t addr w outs).status ≠ .returned v) ∧
        (∀ o, (step E (Listen E Default t addr w outs) o).status = .running ∧
          (step E (Listen E Default t addr w outs) o).sock = .opened)) ∧
    (∀ outs v, (Listen E Default t addr w outs).status = .returned v →
      ∃ e, v = some e ∧
        ((E.ResolveUDPAddr addr).2 = some e ∨
          ((E.ResolveUDPAddr addr).2 = none ∧
            (E.ListenUDP (E.ResolveUDPAddr addr).1).2 = some e))) ∧
    (∀ outs, (Listen E Default t addr w outs).status ≠ .returned none) := by
  have hret : ∀ outs v, (Listen E Default t addr w outs).status = .returned v →
      ∃ e, v = some e ∧
        ((E.ResolveUDPAddr addr).2 = some e ∨
          ((E.ResolveUDPAddr addr).2 = none ∧
            (E.ListenUDP (E.ResolveUDPAddr addr).1).2 = some e)) := by
    intro outs v hv
    cases hres : (E.ResolveUDPAddr addr).2 with
    | some e =>
        rw [Listen_resolve_failed E Default t addr w outs e hres] at hv
        simp only [Status.returned.injEq] at hv
        exact ⟨e, hv.symm, Or.inl rfl⟩
    | none =>
        cases hbind : (E.ListenUDP (E.ResolveUDPAddr addr).1).2 with
        | some e =>
            rw [Listen_bind_failed E Default t addr w outs e hres hbind] at hv
            simp only [Status.returned.injEq] at hv
            exact ⟨e, hv.symm, Or.inr ⟨rfl, rfl⟩⟩
        | none =>
            rw [Listen_enters_loop E Default t addr w outs hres hbind] at hv
            exact absurd hv (loop_not_returned E outs _ (by simp) v)
  refine ⟨?_, hret, ?_⟩
  · intro x hres hbind hx outs
    obtain ⟨h, hh⟩ := applyDefaults_handler_some E Default t
    have hL := Listen_running E Default t addr w outs x h hres hbind hx hh
    refine ⟨by rw [hL], by rw [hL], ?_, by rw [hL]; simp, ?_⟩
    · rw [hL]
      simp [foldl_reads]
    · intro o
      rw [hL, step_ready E _ o x h rfl hx hh]
      simp
  · intro outs hv
    obtain ⟨e, he, _⟩ := hret outs none hv
    simp at he

/-- C6, at a bound listener that meets a datagram, a failed read and an empty
datagram the decoder rejects. -/
theorem C6_loop_never_left_witness :
    (Listen sampleExt (some quietParams) emptyListener "0.0.0.0:162" (World.init [])
        [.datagram [1] sampleSrc, .failure "i/o timeout", .datagram [] sampleSrc]).status
      = .running :=
  ((C6_loop_never_left sampleExt (some quietParams) emptyListener "0.0.0.0:162"
      (World.init [])).1 quietParams (by decide) (by decide) rfl
    [.datagram [1] sampleSrc, .failure "i/o timeout", .datagram [] sampleSrc]).1

/-- C2, evaluated on the code: a bound listener whose first read fails. No read
has succeeded, and yet the decoder has run once, on the empty slice `buf[:0]`,
and the handler has been called once, with the packet of that run and a nil
address; with logging enabled both diagnostics are printed. -/
theorem C2_failed_read_still_dispatches :
    ([ReadOutcome.failure "i/o timeout"].filter
        (fun o => (readErrOf o).isNone)).length = 0 ∧
    (Listen sampleExt none { OnNewTrap := some sampleHandler, Params := some sampleParams }
        "0.0.0.0:162" (World.init []) [.failure "i/o timeout"]).status = .running ∧
    (Listen sampleExt none { OnNewTrap := some sampleHandler, Params := some sampleParams }
        "0.0.0.0:162" (World.init []) [.failure "i/o timeout"]).w.reads = 1 ∧
    (Listen sampleExt none { OnNewTrap := some sampleHandler, Params := some sampleParams }
        "0.0.0.0:162" (World.init []) [.failure "i/o timeout"]).w.decoded = [[]] ∧
    (Listen sampleExt none { OnNewTrap := some sampleHandler, Params := some sampleParams }
        "0.0.0.0:162" (World.init []) [.failure "i/o timeout"]).w.calls =
      [(some [], none)] ∧
    (Listen sampleExt none { OnNewTrap := some sampleHandler, Params := some sampleParams }
        "0.0.0.0:162" (World.init []) [.failure "i/o timeout"]).w.app = ["nil"] ∧
    (Listen sampleExt none { OnNewTrap := some sampleHandler, Params := some sampleParams }
        "0.0.0.0:162" (World.init []) [.failure "i/o timeout"]).w.logger =
      ["TrapListener: error in read i/o timeout\n", "unmarshalTrap: empty message\n"] := by
  rw [Listen_running sampleExt none
    { OnNewTrap := some sampleHandler, Params := some sampleParams } "0.0.0.0:162"
    (World.init []) [.failure "i/o timeout"] sampleParams sampleHandler
    (by decide) (by decide) rfl rfl]
  simp [afterIteration, argsOf, msgOf_failure, remoteOf, readErrOf, readLines, decodeLines,
    ReadFromUDP, sampleExt, sampleParams, sampleHandler, World.init]

/-- C7: in an iteration whose read succeeds, the buffer handed to the read is the
fresh array of 4096 zero octets, the read reports `rlen = min (len datagram) 4096`,
and the decoder is handed exactly the first `rlen` octets of the buffer: a slice of
length `rlen`, at most 4096, equal to the first 4096 octets of the datagram (to the
whole datagram when it fits). As the buffer is fresh in every iteration, the slice
is the same whatever the world before and whatever the loop has read before. -/
theorem C7_message_is_buffer_slice (E : Ext Packet Cfg α) (x : GoSNMP Cfg)
    (p : List Byte) (s : UDPAddr) (w : World Packet α) :
    newBuf = List.replicate 4096 0 ∧
    (ReadFromUDP newBuf (.datagram p s)).1.length = 4096 ∧
    (ReadFromUDP newBuf (.datagram p s)).2.1 = min p.length 4096 ∧
    (ReadFromUDP newBuf (.datagram p s)).2.1 ≤ 4096 ∧
    (receive E x (.datagram p s) w).2.2.decoded =
      w.decoded ++
        [(ReadFromUDP newBuf (.datagram p s)).1.take (ReadFromUDP newBuf (.datagram p s)).2.1] ∧
    ((ReadFromUDP newBuf (.datagram p s)).1.take
        (ReadFromUDP newBuf (.datagram p s)).2.1).length =
      (ReadFromUDP newBuf (.datagram p s)).2.1 ∧
    (ReadFromUDP newBuf (.datagram p s)).1.take (ReadFromUDP newBuf (.datagram p s)).2.1 =
      p.take 4096 ∧
    (4096 < p.length →
      ((ReadFromUDP newBuf (.datagram p s)).1.take
        (ReadFromUDP newBuf (.datagram p s)).2.1).length = 4096) ∧
    (p.length ≤ 4096 →
      (ReadFromUDP newBuf (.datagram p s)).1.take (ReadFromUDP newBuf (.datagram p s)).2.1 =
        p) ∧
    (∀ (r : Run Packet Cfg α) (h : TrapHandler Packet α) (prev : List ReadOutcome),
      r.status = .running → r.t.Params = some x → r.t.OnNewTrap = some h →
      (loop E r (prev ++ [.datagram p s])).w.decoded =
        (loop E r prev).w.decoded ++ [p.take 4096]) := by
  have hmsg : (ReadFromUDP newBuf (.datagram p s)).1.take
      (ReadFromUDP newBuf (.datagram p s)).2.1 = p.take 4096 :=
    msgOf_datagram p s
  have hlen : (ReadFromUDP newBuf (.datagram p s)).2.1 = min p.length 4096 := by
    simp [ReadFromUDP, newBuf_length, bufSize]
  refine ⟨rfl, ?_, hlen, ?_, ?_, ?_, hmsg, ?_, ?_, ?_⟩
  · simp only [ReadFromUDP, List.length_append, List.length_take, List.length_drop,
      newBuf_length, bufSize]
    omega
  · rw [hlen]
    exact Nat.min_le_right _ _
  · rw [receive_eq]
    rfl
  · rw [hmsg, hlen, List.length_take]
    exact Nat.min_comm _ _
  · intro hp
    rw [hmsg, List.length_take]
    omega
  · intro hp
    rw [hmsg]
    exact List.take_of_length_le hp
  · intro r h prev hs hx hh
    rw [loop_ready E x h _ r hs hx hh, loop_ready E x h _ r hs hx hh]
    simp [List.foldl_append, afterIteration, msgOf_datagram, bufSize]

/-- C7, at a datagram of 5000 octets: the decoder is handed 4096 of them. -/
theorem C7_message_is_buffer_slice_witness :
    ((ReadFromUDP newBuf (.datagram (List.replicate 5000 1) sampleSrc)).1.take
        (ReadFromUDP newBuf (.datagram (List.replicate 5000 1) sampleSrc)).2.1).length =
      4096 :=
  (C7_message_is_buffer_slice sampleExt sampleParams (List.replicate 5000 1) sampleSrc
    (World.init [])).2.2.2.2.2.2.2.1 (by rw [List.length_replicate]; omega)

/-- C8: for a bound listener (non-nil `Params` after defaulting) that reads the
datagrams `ds` in this order, the calls of the handler are exactly the pairs of
the decoded packet and the sender of each datagram, in the same order, one per
datagram; and the calls made for `xs ++ ys` are those made for `xs` followed by
those made for `ys`. -/
theorem C8_order_preserved (E : Ext Packet Cfg α) (Default : Option (GoSNMP Cfg))
    (t : TrapListener Packet Cfg α) (addr : String) (w : World Packet α) (x : GoSNMP Cfg)
    (hres : (E.ResolveUDPAddr addr).2 = none)
    (hbind : (E.ListenUDP (E.ResolveUDPAddr addr).1).2 = none)
    (hx : (applyDefaults E Default t).Params = some x) :
    (∀ ds : List (List Byte × UDPAddr),
      (Listen E Default t addr w (ds.map fun d => .datagram d.1 d.2)).w.calls =
        w.calls ++
          ds.map (fun d => (some (E.unmarshal x (d.1.take bufSize) E.newPacket).1, some d.2))) ∧
    (∀ ds : List (List Byte × UDPAddr),
      (Listen E Default t addr w (ds.map fun d => .datagram d.1 d.2)).w.calls.length =
        w.calls.length + ds.length) ∧
    (∀ xs ys : List ReadOutcome,
      (Listen E Default t addr { w with calls := [] } (xs ++ ys)).w.calls =
        (Listen E Default t addr { w with calls := [] } xs).w.calls ++
          (Listen E Default t addr { w with calls := [] } ys).w.calls) := by
  obtain ⟨h, hh⟩ := applyDefaults_handler_some E Default t
  have hcalls : ∀ ds : List (List Byte × UDPAddr),
      (Listen E Default t addr w (ds.map fun d => .datagram d.1 d.2)).w.calls =
        w.calls ++
          ds.map (fun d =>
            (some (E.unmarshal x (d.1.take bufSize) E.newPacket).1, some d.2)) := by
    intro ds
    rw [Listen_running E Default t addr w _ x h hres hbind hx hh]
    simp only [foldl_calls, List.map_map]
    congr 1
    apply List.map_congr_left
    intro d _
    simp [argsOf, msgOf_datagram, remoteOf, ReadFromUDP]
  refine ⟨hcalls, ?_, ?_⟩
  · intro ds
    rw [hcalls ds]
    simp
  · intro xs ys
    rw [Listen_running E Default t addr _ _ x h hres hbind hx hh,
      Listen_running E Default t addr _ _ x h hres hbind hx hh,
      Listen_running E Default t addr _ _ x h hres hbind hx hh]
    simp [foldl_calls]

/-- C8, at two datagrams from two senders. -/
theorem C8_order_preserved_witness :
    (Listen sampleExt (some quietParams) emptyListener "0.0.0.0:162" (World.init [])
        ([([1, 2], sampleSrc), ([3], ⟨[10, 0, 0, 8], 50001, ""⟩)].map
          fun d => .datagram d.1 d.2)).w.calls.length =
      (World.init [] : World (List Byte) (List String)).calls.length +
        [(([1, 2] : List Byte), sampleSrc), ([3], ⟨[10, 0, 0, 8], 50001, ""⟩)].length :=
  (C8_order_preserved sampleExt (some quietParams) emptyListener "0.0.0.0:162"
    (World.init []) quietParams (by decide) (by decide) rfl).2.1
    [([1, 2], sampleSrc), ([3], ⟨[10, 0, 0, 8], 50001, ""⟩)]

/-- C9: for every input and every configuration, `unmarshalTrap` returns a non-nil
packet: the one the decoder left in the fresh zero packet it was handed, whether
the decoder reported an error or not. The decoder is run exactly once, on the
input. The packet depends neither on the world nor on `loggingEnabled` (as far as
the decoder itself ignores the flag), and the decode error reaches the caller
through nothing but the Logger: calls, reads and handler state are untouched. -/
theorem C9_unmarshalTrap_returns_packet (E : Ext Packet Cfg α) (x : GoSNMP Cfg)
    (trap : List Byte) (w : World Packet α) :
    (unmarshalTrap E x trap w).1 = some (E.unmarshal x trap E.newPacket).1 ∧
    (unmarshalTrap E x trap w).1 ≠ none ∧
    (∀ p err, E.unmarshal x trap E.newPacket = (p, err) →
      (unmarshalTrap E x trap w).1 = some p) ∧
    (unmarshalTrap E x trap w).2.decoded = w.decoded ++ [trap] ∧
    (∀ w2 : World Packet α, (unmarshalTrap E x trap w2).1 = (unmarshalTrap E x trap w).1) ∧
    (∀ b, (E.unmarshal { x with loggingEnabled := b } trap E.newPacket).1 =
        (E.unmarshal x trap E.newPacket).1 →
      (unmarshalTrap E { x with loggingEnabled := b } trap w).1 =
        (unmarshalTrap E x trap w).1) ∧
    (unmarshalTrap E x trap w).2.calls = w.calls ∧
    (unmarshalTrap E x trap w).2.reads = w.reads ∧
    (unmarshalTrap E x trap w).2.app = w.app := by
  refine ⟨?_, ?_, ?_, ?_, ?_, ?_, ?_, ?_, ?_⟩
  · rw [unmarshalTrap_eq]
  · rw [unmarshalTrap_eq]
    simp
  · intro p err hq
    rw [unmarshalTrap_eq, hq]
  · rw [unmarshalTrap_eq]
  · intro w2
    rw [unmarshalTrap_eq, unmarshalTrap_eq]
  · intro b hb
    rw [unmarshalTrap_eq, unmarshalTrap_eq, hb]
  · rw [unmarshalTrap_eq]
  · rw [unmarshalTrap_eq]
  · rw [unmarshalTrap_eq]

/-- C9, at an empty input, which the sample decoder rejects. -/
theorem C9_unmarshalTrap_returns_packet_witness :
    (unmarshalTrap sampleExt sampleParams [] (World.init ([] : List String))).1 = some [] :=
  (C9_unmarshalTrap_returns_packet sampleExt sampleParams [] (World.init [])).2.2.1
    [] (some "empty message") rfl

/-- C10: what one iteration and `unmarshalTrap` print to the Logger. An iteration
whose read fails with `e` prints the read diagnostic for `e` exactly when
`loggingEnabled` is set, and an iteration whose read succeeds prints none;
`unmarshalTrap` prints the decode diagnostic, which contains the error, exactly
when `loggingEnabled` is set and the decoder reported an error. With
`loggingEnabled` unset, `Listen` prints nothing, whatever it reads. -/
theorem C10_diagnostics (E : Ext Packet Cfg α) (x : GoSNMP Cfg) (w : World Packet α) :
    (∀ e, (receive E x (.failure e) w).2.2.logger =
      w.logger ++
        ((if x.loggingEnabled then ["TrapListener: error in read " ++ e ++ "\n"] else []) ++
          (match (E.unmarshal x [] E.newPacket).2 with
           | some d => if x.loggingEnabled then ["unmarshalTrap: " ++ d ++ "\n"] else []
           | none => []))) ∧
    (∀ p s, (receive E x (.datagram p s) w).2.2.logger =
      w.logger ++
        (match (E.unmarshal x (p.take bufSize) E.newPacket).2 with
         | some d => if x.loggingEnabled then ["unmarshalTrap: " ++ d ++ "\n"] else []
         | none => [])) ∧
    (∀ trap, (unmarshalTrap E x trap w).2.logger =
      w.logger ++
        (match (E.unmarshal x trap E.newPacket).2 with
         | some d => if x.loggingEnabled then ["unmarshalTrap: " ++ d ++ "\n"] else []
         | none => [])) ∧
    (∀ trap d, x.loggingEnabled = true → (E.unmarshal x trap E.newPacket).2 = some d →
      (unmarshalTrap E x trap w).2.logger = w.logger ++ ["unmarshalTrap: " ++ d ++ "\n"]) ∧
    (∀ trap, (x.loggingEnabled = false ∨ (E.unmarshal x trap E.newPacket).2 = none) →
      (unmarshalTrap E x trap w).2.logger = w.logger) ∧
    (x.loggingEnabled = false →
      ∀ (Default : Option (GoSNMP Cfg)) (t : TrapListener Packet Cfg α) (addr : String)
        (outs : List ReadOutcome),
        (applyDefaults E Default t).Params = some x →
        (Listen E Default t addr w outs).w.logger = w.logger) := by
  refine ⟨?_, ?_, ?_, ?_, ?_, ?_⟩
  · intro e
    rw [receive_eq]
    simp [readLines, readErrOf, ReadFromUDP, decodeLines, msgOf_failure]
  · intro p s
    rw [receive_eq]
    simp [readLines, readErrOf, ReadFromUDP, decodeLines, msgOf_datagram]
  · intro trap
    rw [unmarshalTrap_eq]
    rfl
  · intro trap d hl hd
    rw [unmarshalTrap_eq]
    simp [decodeLines, hl, hd]
  · intro trap hc
    rw [unmarshalTrap_eq]
    rcases hc with hl | hd
    · cases hq : (E.unmarshal x trap E.newPacket).2 <;> simp [decodeLines, hl, hq]
    · simp [decodeLines, hd]
  · intro hq Default t addr outs hx
    obtain ⟨h, hh⟩ := applyDefaults_handler_some E Default t
    cases hres : (E.ResolveUDPAddr addr).2 with
    | some e => rw [Listen_resolve_failed E Default t addr w outs e hres]
    | none =>
        cases hbind : (E.ListenUDP (E.ResolveUDPAddr addr).1).2 with
        | some e => rw [Listen_bind_failed E Default t addr w outs e hres hbind]
        | none =>
            rw [Listen_running E Default t addr w outs x h hres hbind hx hh]
            simp [foldl_logger_quiet E x h hq]

/-- C10, at a quiet listener that meets a failed read and a datagram the decoder
rejects: nothing is printed. -/
theorem C10_diagnostics_witness :
    (Listen sampleExt (some quietParams) emptyListener "0.0.0.0:162" (World.init [])
        [.failure "i/o timeout", .datagram [] sampleSrc]).w.logger =
      (World.init [] : World (List Byte) (List String)).logger :=
  (C10_diagnostics sampleExt quietParams (World.init [])).2.2.2.2.2 rfl
    (some quietParams) emptyListener "0.0.0.0:162"
    [.failure "i/o timeout", .datagram [] sampleSrc] rfl

end gosnmp
